import Mathlib

/-!
Verification development for the AI territorial logistics planner of the
`solaris` repository (`src/server/services/ai.js`, with the distance helpers in
`src/server/services/distance.js`).

The JavaScript source is shallowly embedded:
* plain JS objects become Lean structures;
* `Map`s are embedded as association lists (`List (Nat × List Nat)`) when
  their iteration order matters, and through an explicit `mapGet` lookup
  returning `Option` (a missing key is JS `undefined`);
* JS `Set`s of indices become `Finset Nat` (or insertion-ordered `List Nat`
  where the source relies on iteration order);
* fallible code runs in `Except JsError`; a reference to a name that has no
  binding in the enclosing scope of the source is embedded as a
  `JsError.referenceError`, because evaluating such a name in JavaScript
  throws exactly that error at the moment the statement runs;
* the two loops of the logistics-graph builder can, in principle, run
  unboundedly (the `while` loop re-inserts queue entries, the connection
  search recurses through the logistics graph with no visited set), so both
  take an explicit fuel argument; exhausted fuel is the distinguished
  `JsError.fuelExhausted`, which is an artifact of the embedding, not a JS
  exception.

Numeric game quantities (credits, scores, distances) are embedded as
rationals.  The only IEEE-754-specific behaviour any claim touches is the
division `1 / distanceRelative` at ai.js:190, which is modelled separately by
`scoreOf` over a small type `JSNum` of JS double values (finite values plus
Infinity).
-/

deriving instance DecidableEq for Except

namespace Solaris

/-- JsError models a thrown JavaScript exception: `referenceError name` is the
`ReferenceError` raised when the unbound identifier `name` is evaluated,
`typeError` is a `TypeError` (e.g. calling a method of `undefined`),
`error` is a plain `new Error(message)` thrown by the program, and
`fuelExhausted` is the embedding's marker for running out of fuel (no JS
counterpart; it never arises on the executions the theorems below describe). -/
inductive JsError where
  | referenceError (name : String)
  | typeError (message : String)
  | error (message : String)
  | fuelExhausted
deriving DecidableEq, Repr

/-- JSNum models the IEEE-754 double values relevant here: finite values
(idealised as rationals) and positive Infinity. -/
inductive JSNum where
  | finite (q : ℚ)
  | inf
deriving DecidableEq, Repr

/-- Embedding of ai.js:190, `const score = 1 / distanceRelative;`.  The source
has no guard around the division: under IEEE-754 semantics, when
`distanceRelative` is (positive) zero the division evaluates to Infinity;
otherwise it is the ordinary finite quotient.  (`distanceRelative` is a
quotient of a distance by a positive range, hence never negative zero.) -/
def scoreOf (distanceRelative : ℚ) : JSNum :=
  if distanceRelative = 0 then JSNum.inf else JSNum.finite (1 / distanceRelative)

/-- Number.MAX_VALUE, the largest finite IEEE-754 double,
`(2^53 - 1) * 2^971`. -/
def numberMaxValue : JSNum := JSNum.finite ((2 ^ 53 - 1) * 2 ^ 971)

/-- A 2D location, as in `star.location` with fields `x` and `y`. -/
structure Location where
  x : ℚ
  y : ℚ
deriving DecidableEq, Repr

/-- The hyperspace technology record, `research.hyperspace` with its
`level` field. -/
structure HyperspaceTech where
  level : ℚ
deriving DecidableEq, Repr

/-- The research state of a player, `player.research`. -/
structure ResearchState where
  hyperspace : HyperspaceTech
deriving DecidableEq, Repr

/-- A player object, with the fields `play` and `_computeBorderStarQueue`
read: `defeated`, `ai`, `credits` and `research`. -/
structure Player where
  defeated : Bool
  ai : Bool
  credits : ℚ
  research : ResearchState
deriving DecidableEq, Repr

/-- A star object: its `location` and `ownedByPlayerId` (JS `null`/missing
owner is `none`). Player ids are embedded as naturals. -/
structure Star where
  location : Location
  ownedByPlayerId : Option Nat
deriving DecidableEq, Repr

/-- The galaxy snapshot read by the planner: `game.galaxy.players` and
`game.galaxy.stars`. -/
structure Galaxy where
  players : List Player
  stars : List Star
deriving DecidableEq, Repr

/-- The game object, restricted to the parts the embedded functions read. -/
structure Game where
  galaxy : Galaxy
deriving DecidableEq, Repr

/-- Embedding of `Math.max` on two numbers, as used at ai.js:46
(`player.credits = Math.max(0, player.credits);`). -/
def mathMax (a b : ℚ) : ℚ := if a ≤ b then b else a

/-- Embedding of `AIService.play` (ai.js:18-47).  The guard
`if (!player.defeated) throw new Error('The player is not under AI control.')`
runs before the `try` block.  The whole `try` body (lines 25-38: `_setupAi`
and the first-tick/last-tick spending, which call external collaborator
services not under `src/`) is abstracted as `body`, an arbitrary state
transformer on the player that may additionally raise an exception; the
`catch` clause (lines 39-41) only logs that exception, so the final
statement `player.credits = Math.max(0, player.credits)` runs on the state
the body left behind, whether or not the body threw. -/
def play (body : Player → Player × Option JsError) (player : Player) :
    Except JsError Player :=
  if !player.defeated then
    Except.error (JsError.error "The player is not under AI control.")
  else
    let result := body player
    Except.ok { result.1 with credits := mathMax 0 result.1.credits }

/-- C10: `AIService.play` throws exactly when `player.defeated` is falsy, and
then with the message `The player is not under AI control.`; when
`player.defeated` is truthy, any exception raised by the planning or spending
logic (the `body`, including its optional raised exception) is swallowed by
the `catch` clause and `play` returns normally; and every normal return
leaves `player.credits` non-negative. -/
theorem play_throws_iff_not_defeated_and_clamps_credits
    (body : Player → Player × Option JsError) (player : Player) :
    ((play body player).isOk = true ↔ player.defeated = true) ∧
    (play body player = Except.error (JsError.error "The player is not under AI control.")
      ↔ player.defeated = false) ∧
    (∀ p', play body player = Except.ok p' → 0 ≤ p'.credits) := by
  unfold play
  cases h : player.defeated with
  | false =>
    refine ⟨by simp [Except.isOk, Except.toBool], by simp, ?_⟩
    intro p' hp'
    simp at hp'
  | true =>
    refine ⟨by simp [Except.isOk, Except.toBool], by simp, ?_⟩
    intro p' hp'
    simp at hp'
    have : p'.credits = mathMax 0 (body player).1.credits := by
      rw [← hp']
    rw [this, mathMax]
    split
    · assumption
    · exact le_refl 0

/-- A concrete body for the witness of C10: it overspends the credits far
below zero and throws a TypeError, which `play` must swallow. -/
def witnessBody : Player → Player × Option JsError :=
  fun p => ({ p with credits := p.credits - 1000 }, some (JsError.typeError "boom"))

/-- A concrete defeated player for the witness of C10. -/
def witnessPlayer : Player :=
  { defeated := true, ai := false, credits := 5, research := ⟨⟨1⟩⟩ }

/-- Witness for C10 at a concrete defeated player whose body overspends and
throws: `play` still returns normally and the returned credits satisfy the
non-negativity bound. -/
theorem play_throws_iff_not_defeated_and_clamps_credits_witness :
    (play witnessBody witnessPlayer).isOk = true ∧
    0 ≤ ({ witnessPlayer with credits := 0 } : Player).credits := by
  have h := play_throws_iff_not_defeated_and_clamps_credits witnessBody witnessPlayer
  refine ⟨h.1.mpr rfl, h.2.2 { witnessPlayer with credits := 0 } ?_⟩
  simp [play, witnessBody, witnessPlayer, mathMax]
  norm_num

/-- An entry of the border star priority queue (ai.js:191-194): a score and a
vertex index.  Scores are embedded as rationals; no score value is ever
actually computed by the source (see `computeBorderStarQueue` below), and the
one IEEE-754 special case a claim touches is treated by `scoreOf`. -/
structure QEntry where
  score : ℚ
  vertex : Nat
deriving DecidableEq, Repr

/-- Embedding of the comparator handed to the qheap constructor at ai.js:179,
`comparBefore: (b1, b2) => b1.score < b2.score` (the sibling
`compar: (b1, b2) => b1.score - b2.score` encodes the same ascending order in
`Array.prototype.sort` style). -/
def comparBefore (b1 b2 : QEntry) : Bool := b1.score < b2.score

/-- Model of the `qheap` priority queue (an external npm dependency, so its
internals are not part of this repository): per its documented contract, the
heap keeps the item that sorts first under `comparBefore` at the root, and
`dequeue` removes and returns that item.  The queue contents are modelled as
the list of items in dequeue order; `bsqInsert` places a new item before the
first existing item that does not sort before it, which keeps the list sorted
by `comparBefore` with earlier-inserted ties first. -/
def bsqInsert (e : QEntry) : List QEntry → List QEntry
  | [] => [e]
  | x :: xs => if comparBefore x e then x :: bsqInsert e xs else e :: x :: xs

/-- Model of `qheap`'s `dequeue` (ai.js:211): remove and return the item that
sorts first under `comparBefore`; on an empty heap qheap returns `undefined`,
modelled as `none`. -/
def bsqDequeue : List QEntry → Option (QEntry × List QEntry)
  | [] => none
  | x :: xs => some (x, xs)

/-- C1: with the comparator of ai.js:179 the queue is a minimum-priority
queue, not the claimed maximum-priority queue.  Inserting entries with scores
1 and 2, `dequeue` returns the entry with score 1 even though the maximum
score present is 2: the dequeued score is the least, not the greatest, of the
scores in the queue. -/
theorem borderStarQueue_dequeues_minimum_score :
    bsqDequeue (bsqInsert ⟨2, 1⟩ (bsqInsert ⟨1, 0⟩ [])) = some (⟨1, 0⟩, [⟨2, 1⟩]) ∧
    max (1 : ℚ) 2 = 2 := by
  constructor
  · decide
  · norm_num

/-- ai.js:204 reads `borderVertices.has(vertexIndex)` inside
`_createLogisticsGraph`, but no binding named `borderVertices` is in scope in
that method (the variable of that name is a local of `_setupAi`); evaluating
the name throws a ReferenceError. -/
def borderVerticesVar : Except JsError (Finset Nat) :=
  Except.error (JsError.referenceError "borderVertices")

/-- ai.js:213 reads `const oldScore = score;` inside the while loop of
`_createLogisticsGraph`, but no binding named `score` is in scope there (the
variable of that name is a local of `_computeBorderStarQueue`); evaluating the
name throws a ReferenceError. -/
def scoreVar : Except JsError ℚ :=
  Except.error (JsError.referenceError "score")

/-- Lookup in a JS `Map` embedded as an association list: `m.get(k)` returns
the value of the first (only) entry with key `k`, or `undefined` (`none`). -/
def mapGet (m : List (Nat × List Nat)) (k : Nat) : Option (List Nat) :=
  (m.find? (fun p => p.1 = k)).map (fun p => p.2)

/-- The logistics graph (ai.js:209): a JS `Map` from source vertex to the
`Set` of destination vertices, embedded as an association list with the
destination set as an insertion-ordered list. -/
abbrev LogGraph := List (Nat × List Nat)

/-- `map.set(k, v)` on the embedded `Map`: overwrite the entry with key `k`
if present, otherwise append a new entry (JS `Map` iteration order is
insertion order). -/
def graphSet (m : LogGraph) (k : Nat) (v : List Nat) : LogGraph :=
  if (m.find? (fun p => p.1 = k)).isSome then
    m.map (fun p => if p.1 = k then (k, v) else p)
  else m ++ [(k, v)]

/-- `set.add(v)` on an insertion-ordered JS `Set` embedded as a list. -/
def addIfAbsent (v : Nat) (l : List Nat) : List Nat :=
  if v ∈ l then l else l ++ [v]

/-- Embedding of the initialization loop of `_createLogisticsGraph`
(ai.js:202-207).  Two things in the source: the `for...of` over the `Map`
iterates `[key, value]` entries, not keys (the embedding tests the key
component, which is unreachable anyway); and the loop body dereferences the
unbound name `borderVertices`, so the first iteration throws a
ReferenceError.  Only an empty adjacency map gets past this loop. -/
def initUnmarked (adj : List (Nat × List Nat)) : Except JsError (Finset Nat) :=
  adj.foldlM (fun unmarkedVertices entry => do
    let bv ← borderVerticesVar
    pure (if entry.1 ∈ bv then unmarkedVertices else insert entry.1 unmarkedVertices))
    (∅ : Finset Nat)

/-- Embedding of `_findNextLogisticsConnection` (ai.js:229-247).  Reading
`vertexIndexToConnectedVertexIndices.get(startingVertex)` on a missing key
gives `undefined` and the subsequent `Array.from` throws a TypeError; the
`find` over the adjacency list returns the first unclaimed vertex, but the
guard `if (direct)` treats vertex index 0 as falsy, so a found index 0 is
dropped and the search falls through to the recursive branch (modelled by the
`Option.filter`); the recursive branch reads `logisticsGraph.get(...)`, which
is `undefined` (TypeError on iteration) when the starting vertex has no
outgoing edges yet; otherwise each already-connected destination is searched
in turn, stopping at the first success (a failed recursive call leaves the
unclaimed set unchanged).  The recursion carries no visited set, so it need
not terminate on cyclic graphs; `fuel` bounds the depth. -/
def findNextLogisticsConnection :
    Nat → List (Nat × List Nat) → LogGraph → Finset Nat → Nat →
    Except JsError (Option (Nat × Nat) × Finset Nat)
  | 0, _, _, _, _ => Except.error JsError.fuelExhausted
  | fuel + 1, adj, graph, unmarkedVertices, startingVertex =>
    match mapGet adj startingVertex with
    | none => Except.error (JsError.typeError "possibleConnections is not iterable")
    | some possibleConnections =>
      match (possibleConnections.find? (fun v => v ∈ unmarkedVertices)).filter
          (fun v => v ≠ 0) with
      | some direct => Except.ok (some (startingVertex, direct), unmarkedVertices.erase direct)
      | none =>
        match mapGet graph startingVertex with
        | none => Except.error (JsError.typeError "connected is not iterable")
        | some connected =>
          connected.foldlM (fun acc c =>
            match acc.1 with
            | some _ => pure acc
            | none => findNextLogisticsConnection fuel adj graph acc.2 c)
            ((none : Option (Nat × Nat)), unmarkedVertices)

/-- Embedding of the while loop of `_createLogisticsGraph` (ai.js:210-224).
Each iteration dequeues, then runs `const oldScore = score;` — and `score` is
unbound in this scope, so the first iteration throws a ReferenceError.  The
rest of the body (recording the found connection in the graph and re-inserting
the border vertex with half the score) is embedded anyway; it is unreachable.
A dequeue of an empty heap would return `undefined` and the subsequent
`item.vertex` would throw; that branch is also unreachable because the loop
condition checks the queue length. -/
def logisticsLoop :
    Nat → List (Nat × List Nat) → Finset Nat → List QEntry → LogGraph →
    Except JsError LogGraph
  | 0, _, _, _, _ => Except.error JsError.fuelExhausted
  | fuel + 1, adj, unmarkedVertices, queue, graph =>
    if unmarkedVertices = ∅ ∨ queue = [] then Except.ok graph
    else
      match bsqDequeue queue with
      | none => Except.error (JsError.typeError "item is undefined")
      | some (item, queueRest) => do
        let borderVertex := item.vertex
        let oldScore ← scoreVar
        let found ← findNextLogisticsConnection fuel adj graph unmarkedVertices borderVertex
        match found.1 with
        | some conn =>
          let fromConnections := (mapGet graph conn.1).getD []
          let graph' := graphSet graph conn.1 (addIfAbsent conn.2 fromConnections)
          logisticsLoop fuel adj found.2
            (bsqInsert ⟨oldScore * (1 / 2), borderVertex⟩ queueRest) graph'
        | none => logisticsLoop fuel adj found.2 queueRest graph

/-- Embedding of `_createLogisticsGraph` (ai.js:201-227): initialize the
unclaimed-vertex set, then drain the queue. -/
def createLogisticsGraph (fuel : Nat) (adj : List (Nat × List Nat)) (queue : List QEntry) :
    Except JsError LogGraph :=
  match initUnmarked adj with
  | Except.error e => Except.error e
  | Except.ok unmarkedVertices => logisticsLoop fuel adj unmarkedVertices queue []

/-- Computation lemma: an empty adjacency map survives initialization with an
empty unclaimed set. -/
theorem initUnmarked_nil : initUnmarked [] = Except.ok (∅ : Finset Nat) := rfl

/-- Computation lemma: a nonempty adjacency map makes the initialization loop
throw the `borderVertices` ReferenceError on its first iteration. -/
theorem initUnmarked_cons (e : Nat × List Nat) (l : List (Nat × List Nat)) :
    initUnmarked (e :: l) = Except.error (JsError.referenceError "borderVertices") := rfl

/-- Computation lemma: on an empty adjacency map, `_createLogisticsGraph`
runs the loop with an empty unclaimed set. -/
theorem createLogisticsGraph_nil (fuel : Nat) (queue : List QEntry) :
    createLogisticsGraph fuel [] queue = logisticsLoop fuel [] ∅ queue [] := rfl

/-- Computation lemma: on a nonempty adjacency map, `_createLogisticsGraph`
propagates the initialization ReferenceError. -/
theorem createLogisticsGraph_cons (fuel : Nat) (e : Nat × List Nat)
    (l : List (Nat × List Nat)) (queue : List QEntry) :
    createLogisticsGraph fuel (e :: l) queue =
      Except.error (JsError.referenceError "borderVertices") := rfl

/-- Computation lemma: with an empty unclaimed set the while loop exits at
once and returns the graph unchanged. -/
theorem logisticsLoop_empty_unmarked (n : Nat) (adj : List (Nat × List Nat))
    (queue : List QEntry) (graph : LogGraph) :
    logisticsLoop (n + 1) adj ∅ queue graph = Except.ok graph := by
  unfold logisticsLoop
  rw [if_pos (Or.inl rfl)]

/-- C9: the unclaimed set is never initialized to "all points of the
adjacency graph not in the Boundary Set": on any nonempty adjacency map the
initialization loop throws a ReferenceError, because `_createLogisticsGraph`
has no `borderVertices` binding in scope (and its `for...of` walks `[key,
value]` entries rather than keys).  Evaluation at the two-point adjacency
graph 0 ↔ 1. -/
theorem initUnmarked_throws_referenceError :
    initUnmarked [(0, [1]), (1, [0])] =
      Except.error (JsError.referenceError "borderVertices") := rfl

/-- C3: the building loop never performs the claimed
claim-or-discard-with-decay iteration: its body throws a ReferenceError on
the unbound name `score` in its very first iteration.  Evaluation with
unclaimed set {5} and a queue holding the single entry (score 1, vertex 0):
the loop neither claims a point nor re-inserts a decayed entry, it throws. -/
theorem logisticsLoop_throws_score_referenceError :
    logisticsLoop 2 [(0, [5])] {5} [⟨1, 0⟩] [] =
      Except.error (JsError.referenceError "score") := by
  decide

/-- C4: every logistics graph `_createLogisticsGraph` actually returns is the
empty graph (a nonempty adjacency map throws before the loop, and an empty
one leaves nothing unclaimed), so no returned graph contains a self-edge and
no point appears as the destination of two distinct edges. -/
theorem createLogisticsGraph_no_self_edges_no_repeated_destinations
    (fuel : Nat) (adj : List (Nat × List Nat)) (queue : List QEntry) (g : LogGraph)
    (h : createLogisticsGraph fuel adj queue = Except.ok g) :
    g = [] ∧ (∀ p ∈ g, p.1 ∉ p.2) ∧ (g.flatMap (fun p => p.2)).Nodup := by
  have hg : g = [] := by
    cases adj with
    | nil =>
      cases fuel with
      | zero =>
        rw [createLogisticsGraph_nil] at h
        rw [show logisticsLoop 0 [] ∅ queue [] = Except.error JsError.fuelExhausted from rfl] at h
        exact absurd h (by simp)
      | succ n =>
        rw [createLogisticsGraph_nil, logisticsLoop_empty_unmarked] at h
        exact ((Except.ok.injEq _ _).mp h).symm
    | cons e l =>
      rw [createLogisticsGraph_cons] at h
      exact absurd h (by simp)
  subst hg
  exact ⟨rfl, by simp, by simp⟩

/-- Witness for C4 at the empty adjacency map and empty queue: the function
returns a graph (the empty one) and the invariants hold of it. -/
theorem createLogisticsGraph_no_self_edges_witness :
    ([] : LogGraph) = [] ∧ (∀ p ∈ ([] : LogGraph), p.1 ∉ p.2) ∧
      ((([] : LogGraph)).flatMap (fun p => p.2)).Nodup :=
  createLogisticsGraph_no_self_edges_no_repeated_destinations 1 [] [] [] rfl

/-- Embedding of `_computeVertexGraph` (ai.js:110-124).  The outer `for...of`
walks the entries of `vertexIndexToTriangleIndices` (vertex ↦ list of
incident triangle indices, embedded as an association list in iteration
order); for each entry the inner loops union the vertex sets of all those
triangles into `otherVertices` (a `Set`, embedded as `Finset Nat`) and record
the result.  `triangleIndexToVertexIndices.get` on a missing triangle gives
`undefined`, and iterating it throws a TypeError.  Note the source never
removes the vertex itself from `otherVertices`. -/
def computeVertexGraph (v2t : List (Nat × List Nat)) (t2v : Nat → Option (List Nat)) :
    Except JsError (List (Nat × Finset Nat)) :=
  v2t.foldlM (fun graph entry => do
    let otherVertices ← entry.2.foldlM (fun other triangleIndex => do
      match t2v triangleIndex with
      | none => Except.error (JsError.typeError "verticesForTriangle is not iterable")
      | some verticesForTriangle =>
          pure (verticesForTriangle.foldl (fun s vidx => insert vidx s) other))
      (∅ : Finset Nat)
    pure (graph ++ [(entry.1, otherVertices)])) []

/-- Spec-side characterization for C5: the union of the point sets of all
triangles the vertex belongs to (per the given dual maps), with nothing
excluded. -/
def adjacencySpec (t2v : Nat → Option (List Nat)) : List Nat → Finset Nat
  | [] => ∅
  | t :: ts => ((t2v t).getD []).toFinset ∪ adjacencySpec t2v ts

/-- Folding `insert` over a list is union with the list's elements. -/
theorem foldl_insert_eq_union (l : List Nat) (s : Finset Nat) :
    l.foldl (fun s v => insert v s) s = s ∪ l.toFinset := by
  induction l generalizing s with
  | nil => simp
  | cons v l ih =>
    simp only [List.foldl_cons, ih, List.toFinset_cons]
    ext w
    simp [or_comm, or_left_comm]

/-- The inner loop of `_computeVertexGraph`, when it returns, returns the
accumulated set united with the triangles' vertex sets. -/
theorem computeVertexGraph_inner (t2v : Nat → Option (List Nat)) (ts : List Nat)
    (s s' : Finset Nat)
    (h : (ts.foldlM (fun other triangleIndex => do
        match t2v triangleIndex with
        | none => Except.error (JsError.typeError "verticesForTriangle is not iterable")
        | some verticesForTriangle =>
            pure (verticesForTriangle.foldl (fun s vidx => insert vidx s) other))
        s : Except JsError (Finset Nat)) = Except.ok s') :
    s' = s ∪ adjacencySpec t2v ts := by
  induction ts generalizing s with
  | nil =>
    simp only [List.foldlM] at h
    have : s = s' := by
      have := (Except.ok.injEq (ε := JsError) s s').mp
      exact this h
    simp [adjacencySpec, ← this]
  | cons t ts ih =>
    rw [List.foldlM_cons] at h
    cases ht : t2v t with
    | none =>
      rw [ht] at h
      exact nomatch h
    | some l =>
      rw [ht] at h
      have h' : (ts.foldlM (fun other triangleIndex => do
          match t2v triangleIndex with
          | none => Except.error (JsError.typeError "verticesForTriangle is not iterable")
          | some verticesForTriangle =>
              pure (verticesForTriangle.foldl (fun s vidx => insert vidx s) other))
          (l.foldl (fun s vidx => insert vidx s) s) : Except JsError (Finset Nat)) =
          Except.ok s' := h
      have := ih _ h'
      rw [this, foldl_insert_eq_union, adjacencySpec, ht]
      simp [Finset.union_assoc]

/-- The outer loop of `_computeVertexGraph`, when it returns, appends one
entry per input entry, each carrying the union of its triangles' vertex
sets. -/
theorem computeVertexGraph_outer (v2t : List (Nat × List Nat))
    (t2v : Nat → Option (List Nat)) (acc m : List (Nat × Finset Nat))
    (h : (v2t.foldlM (fun graph entry => do
        let otherVertices ← entry.2.foldlM (fun other triangleIndex => do
          match t2v triangleIndex with
          | none => Except.error (JsError.typeError "verticesForTriangle is not iterable")
          | some verticesForTriangle =>
              pure (verticesForTriangle.foldl (fun s vidx => insert vidx s) other))
          (∅ : Finset Nat)
        pure (graph ++ [(entry.1, otherVertices)])) acc) = Except.ok m) :
    m = acc ++ v2t.map (fun e => (e.1, adjacencySpec t2v e.2)) := by
  induction v2t generalizing acc with
  | nil =>
    simp only [List.foldlM] at h
    have : acc = m := (Except.ok.injEq (ε := JsError) acc m).mp h
    simp [← this]
  | cons e es ih =>
    rw [List.foldlM_cons] at h
    cases hinner : (e.2.foldlM (fun other triangleIndex => do
        match t2v triangleIndex with
        | none => Except.error (JsError.typeError "verticesForTriangle is not iterable")
        | some verticesForTriangle =>
            pure (verticesForTriangle.foldl (fun s vidx => insert vidx s) other))
        (∅ : Finset Nat) : Except JsError (Finset Nat)) with
    | error err =>
      rw [hinner] at h
      exact nomatch h
    | ok s =>
      rw [hinner] at h
      have hs : s = adjacencySpec t2v e.2 := by
        have := computeVertexGraph_inner t2v e.2 ∅ s hinner
        simpa using this
      have := ih (acc ++ [(e.1, s)]) h
      rw [this, hs]
      simp

/-- C5 counterexample input: the dual map of the single triangle 0 with
vertex set {0, 1, 2}. -/
def exT2v : Nat → Option (List Nat) :=
  fun t => if t = 0 then some [0, 1, 2] else none

/-- Evaluation of `_computeVertexGraph` on the counterexample input of C5. -/
theorem computeVertexGraph_cex_eval :
    computeVertexGraph [(0, [0])] exT2v =
      Except.ok [(0, ([0, 1, 2] : List Nat).foldl (fun s v => insert v s) ∅)] := rfl

/-- The insert-fold over the counterexample triangle evaluates to the set
{0, 1, 2}. -/
theorem cexSet_eq :
    (([0, 1, 2] : List Nat).foldl (fun s v => insert v s) (∅ : Finset Nat)) =
      ({0, 1, 2} : Finset Nat) := by
  rw [foldl_insert_eq_union]
  ext x
  simp

/-- C5 counterexample: for the single triangle {0, 1, 2} and the entry of
vertex 0 (which belongs to triangle 0), the adjacency set computed by
`_computeVertexGraph` is the full set {0, 1, 2}, which contains the vertex
itself — the source never excludes the point from its own adjacency set, so
the claim's "with the point itself excluded" fails. -/
theorem computeVertexGraph_does_not_exclude_self :
    computeVertexGraph [(0, [0])] exT2v = Except.ok [(0, ({0, 1, 2} : Finset Nat))] ∧
    0 ∈ ({0, 1, 2} : Finset Nat) := by
  refine ⟨?_, by decide⟩
  rw [computeVertexGraph_cex_eval, cexSet_eq]

/-- C5 amended: for every entry (vertex, incident triangles) of the input
map, the adjacency set computed by `_computeVertexGraph` equals the union of
the point sets of all triangles containing that point, with nothing — in
particular not the point itself — excluded. -/
theorem computeVertexGraph_eq_union_including_self
    (v2t : List (Nat × List Nat)) (t2v : Nat → Option (List Nat))
    (m : List (Nat × Finset Nat))
    (h : computeVertexGraph v2t t2v = Except.ok m) :
    m = v2t.map (fun e => (e.1, adjacencySpec t2v e.2)) := by
  have := computeVertexGraph_outer v2t t2v [] m h
  simpa using this

/-- Witness for C5's amended theorem at the single-triangle input: the
computed graph equals the spec-side union map. -/
theorem computeVertexGraph_eq_union_witness :
    [(0, ({0, 1, 2} : Finset Nat))] =
      ([(0, [0])] : List (Nat × List Nat)).map (fun e => (e.1, adjacencySpec exT2v e.2)) :=
  computeVertexGraph_eq_union_including_self [(0, [0])] exT2v
    [(0, ({0, 1, 2} : Finset Nat))] (by rw [computeVertexGraph_cex_eval, cexSet_eq])

/-- Modelled from the spec: `intersectionOfSets` is imported from
`../utils.js`, which is not under `src/`; per the spec's wording ("A candidate
shares an edge with T if it shares exactly 2 points with T", counted on the
shared vertices) it is plain set intersection. -/
def intersectionOfSets (a b : Finset Nat) : Finset Nat := a ∩ b

/-- The two dual maps handed to `_computeBorderVertices` (ai.js:126), with
their domains: `tris` is the key set of `triangleIndexToVertexIndices` and
`verts` the key set of `vertexIndexToTriangleIndices`; `t2v` and `v2t` give
each key's `Set` value.  The maps are embedded as total functions because in
`_setupAi` both are built from the same flat triangle array, so every lookup
the function performs hits an existing key. -/
structure TriMaps where
  tris : Finset Nat
  verts : Finset Nat
  t2v : Nat → Finset Nat
  v2t : Nat → Finset Nat

/-- Embedding of the candidate collection of `_computeBorderVertices`
(ai.js:133-139): all triangles sharing at least one vertex with `T`, i.e.
the union over `T`'s vertices of their incident-triangle sets.  (This set
contains `T` itself; `T` is removed downstream by the exactly-2 filter,
since it shares all 3 of its vertices with itself.) -/
def triangleCandidates (M : TriMaps) (T : Nat) : Finset Nat :=
  (M.t2v T).biUnion M.v2t

/-- Embedding of `trianglesWithTwoSharedVertices` (ai.js:141-148): the
candidates whose vertex set shares exactly 2 vertices with `T`'s — the
edge-sharing neighbors of `T`. -/
def edgeNeighbors (M : TriMaps) (T : Nat) : Finset Nat :=
  (triangleCandidates M T).filter
    (fun C => (intersectionOfSets (M.t2v C) (M.t2v T)).card = 2)

/-- Embedding of the boundary-triangle classification (ai.js:150-153): a
triangle is a border triangle exactly when it has fewer than 3 edge-sharing
neighbors. -/
def borderTriangles (M : TriMaps) : Finset Nat :=
  M.tris.filter (fun T => (edgeNeighbors M T).card < 3)

/-- ValidTriangulation captures that the dual maps are what `_setupAi`
builds from a planar triangulation: every triangle has 3 vertices, drawn
from the vertex universe; the two maps are mutually consistent duals; and no
edge (unordered vertex pair) lies in more than 2 triangles. -/
def ValidTriangulation (M : TriMaps) : Prop :=
  (∀ T ∈ M.tris, (M.t2v T).card = 3) ∧
  (∀ T ∈ M.tris, M.t2v T ⊆ M.verts) ∧
  (∀ T ∈ M.tris, ∀ v ∈ M.t2v T, T ∈ M.v2t v) ∧
  (∀ v ∈ M.verts, ∀ t ∈ M.v2t v, t ∈ M.tris ∧ v ∈ M.t2v t) ∧
  (∀ v ∈ M.verts, ∀ w ∈ M.verts, v ≠ w →
    (M.tris.filter (fun t => v ∈ M.t2v t ∧ w ∈ M.t2v t)).card ≤ 2)

/-- C6: for any valid triangulation and any triangle `T` of it, `T` has at
most 3 edge-sharing neighbors (candidates sharing exactly 2 vertices with
it), `_computeBorderVertices` classifies `T` as a boundary triangle exactly
when it has fewer than 3 of them, and the candidate-based neighbor set
misses no triangle: it equals the set of all triangles of the triangulation
sharing exactly 2 vertices with `T`. -/
theorem borderTriangle_iff_lt_three_edge_neighbors (M : TriMaps)
    (hM : ValidTriangulation M) (T : Nat) (hT : T ∈ M.tris) :
    (edgeNeighbors M T).card ≤ 3 ∧
    (T ∈ borderTriangles M ↔ (edgeNeighbors M T).card < 3) ∧
    edgeNeighbors M T =
      M.tris.filter (fun C => (intersectionOfSets (M.t2v C) (M.t2v T)).card = 2) := by
  obtain ⟨hcard3, hsub, hdual1, hdual2, hedge2⟩ := hM
  have htris : ∀ C ∈ edgeNeighbors M T,
      C ∈ M.tris ∧ (intersectionOfSets (M.t2v C) (M.t2v T)).card = 2 := by
    intro C hC
    rw [edgeNeighbors, Finset.mem_filter] at hC
    obtain ⟨hCand, hCcard⟩ := hC
    rw [triangleCandidates, Finset.mem_biUnion] at hCand
    obtain ⟨v, hvT, hCv⟩ := hCand
    have hv : v ∈ M.verts := hsub T hT hvT
    exact ⟨(hdual2 v hv C hCv).1, hCcard⟩
  have hEq : edgeNeighbors M T =
      M.tris.filter (fun C => (intersectionOfSets (M.t2v C) (M.t2v T)).card = 2) := by
    ext C
    constructor
    · intro hC
      rw [Finset.mem_filter]
      exact htris C hC
    · intro hC
      rw [Finset.mem_filter] at hC
      obtain ⟨hCtris, hCcard⟩ := hC
      rw [edgeNeighbors, Finset.mem_filter]
      refine ⟨?_, hCcard⟩
      have hne : (intersectionOfSets (M.t2v C) (M.t2v T)).Nonempty := by
        rw [← Finset.card_pos, hCcard]
        norm_num
      obtain ⟨v, hv⟩ := hne
      rw [intersectionOfSets, Finset.mem_inter] at hv
      rw [triangleCandidates, Finset.mem_biUnion]
      exact ⟨v, hv.2, hdual1 C hCtris v hv.1⟩
  have hK3 : (M.t2v T).card = 3 := hcard3 T hT
  have Hf : ∀ C ∈ edgeNeighbors M T,
      intersectionOfSets (M.t2v C) (M.t2v T) ∈ (M.t2v T).powersetCard 2 := by
    intro C hC
    rw [Finset.mem_powersetCard]
    rw [edgeNeighbors, Finset.mem_filter] at hC
    exact ⟨Finset.inter_subset_right, hC.2⟩
  have hfib : ∀ e ∈ (M.t2v T).powersetCard 2,
      ((edgeNeighbors M T).filter
        (fun C => intersectionOfSets (M.t2v C) (M.t2v T) = e)).card ≤ 1 := by
    intro e he
    rw [Finset.mem_powersetCard] at he
    obtain ⟨heK, he2⟩ := he
    obtain ⟨v, w, hvw, rfl⟩ := Finset.card_eq_two.mp he2
    have hvK : v ∈ M.t2v T := heK (by simp)
    have hwK : w ∈ M.t2v T := heK (by simp)
    have hvV : v ∈ M.verts := hsub T hT hvK
    have hwV : w ∈ M.verts := hsub T hT hwK
    have hTF : T ∈ M.tris.filter (fun t => v ∈ M.t2v t ∧ w ∈ M.t2v t) := by
      rw [Finset.mem_filter]
      exact ⟨hT, hvK, hwK⟩
    have hsubF : (edgeNeighbors M T).filter
        (fun C => intersectionOfSets (M.t2v C) (M.t2v T) = {v, w}) ⊆
        (M.tris.filter (fun t => v ∈ M.t2v t ∧ w ∈ M.t2v t)).erase T := by
      intro C hC
      rw [Finset.mem_filter] at hC
      obtain ⟨hCE, hCe⟩ := hC
      have hvC : v ∈ M.t2v C := by
        have hv' : v ∈ intersectionOfSets (M.t2v C) (M.t2v T) := by
          rw [hCe]
          simp
        rw [intersectionOfSets, Finset.mem_inter] at hv'
        exact hv'.1
      have hwC : w ∈ M.t2v C := by
        have hw' : w ∈ intersectionOfSets (M.t2v C) (M.t2v T) := by
          rw [hCe]
          simp
        rw [intersectionOfSets, Finset.mem_inter] at hw'
        exact hw'.1
      have hCT : C ≠ T := by
        intro hEq2
        subst hEq2
        rw [intersectionOfSets, Finset.inter_self] at hCe
        have h3 : (M.t2v C).card = 3 := hcard3 C hT
        rw [hCe] at h3
        have h2 : ({v, w} : Finset Nat).card = 2 := by
          rw [Finset.card_insert_of_not_mem (by simpa using hvw), Finset.card_singleton]
        rw [h2] at h3
        exact absurd h3 (by norm_num)
      rw [Finset.mem_erase]
      refine ⟨hCT, ?_⟩
      rw [Finset.mem_filter]
      exact ⟨(htris C hCE).1, hvC, hwC⟩
    calc ((edgeNeighbors M T).filter
          (fun C => intersectionOfSets (M.t2v C) (M.t2v T) = {v, w})).card
        ≤ ((M.tris.filter (fun t => v ∈ M.t2v t ∧ w ∈ M.t2v t)).erase T).card :=
          Finset.card_le_card hsubF
      _ = (M.tris.filter (fun t => v ∈ M.t2v t ∧ w ∈ M.t2v t)).card - 1 :=
          Finset.card_erase_of_mem hTF
      _ ≤ 2 - 1 := Nat.sub_le_sub_right (hedge2 v hvV w hwV hvw) 1
      _ = 1 := rfl
  have hbound := Finset.card_le_mul_card_image_of_maps_to Hf 1 hfib
  rw [Finset.card_powersetCard, hK3] at hbound
  refine ⟨by simpa using hbound, ?_, hEq⟩
  simp [borderTriangles, Finset.mem_filter, hT]

/-- A concrete valid two-triangle triangulation (triangles {0,1,2} and
{1,2,3} sharing the edge {1,2}) for the witness of C6. -/
def Mex : TriMaps where
  tris := {0, 1}
  verts := {0, 1, 2, 3}
  t2v := fun t => if t = 0 then {0, 1, 2} else if t = 1 then {1, 2, 3} else ∅
  v2t := fun v =>
    if v = 0 then {0} else if v = 1 then {0, 1}
    else if v = 2 then {0, 1} else if v = 3 then {1} else ∅

/-- Witness for C6 at the two-triangle triangulation `Mex` and its triangle
0: the validity hypotheses hold and triangle 0 (which has one edge-sharing
neighbor) is classified as a border triangle. -/
theorem borderTriangle_iff_lt_three_edge_neighbors_witness :
    (edgeNeighbors Mex 0).card ≤ 3 ∧
    (0 ∈ borderTriangles Mex ↔ (edgeNeighbors Mex 0).card < 3) ∧
    edgeNeighbors Mex 0 =
      Mex.tris.filter (fun C => (intersectionOfSets (Mex.t2v C) (Mex.t2v 0)).card = 2) :=
  borderTriangle_iff_lt_three_edge_neighbors Mex
    ⟨by decide, by decide, by decide, by decide, by decide⟩ 0 (by decide)

/-- Modelled from the spec: `maxBy` comes from `../utils.js`, which is not
under `src/`; per the spec it yields the greatest value of `f` over the list
("the highest relevant research/tech level present in the game").  Its exact
value is immaterial to every theorem below: the caller throws on its very
next line. -/
def maxBy {α : Type} (f : α → ℚ) (l : List α) : ℚ :=
  (l.map f).foldl max 0

/-- Embedding of `DistanceService.getHyperspaceDistance` (distance.js:71-73):
`((hyperspace || 1) + 1.5) * game.constants.distances.lightYear`, with the
light-year constant passed explicitly.  Included for reference; the AI
service can never reach it, see the next definition. -/
def getHyperspaceDistance (lightYear : ℚ) (hyperspace : ℚ) : ℚ :=
  ((if hyperspace = 0 then 1 else hyperspace) + 3 / 2) * lightYear

/-- ai.js:15: the constructor body contains the bare expression statement
`this.distanceService;` — not an assignment — so the `distanceService`
field of the AI service is `undefined`, and the method call
`this.distanceService.getHyperspaceDistance(...)` at ai.js:175 throws a
TypeError.  The arguments are those of the source call site; they are not
consulted. -/
def thisDistanceServiceGetHyperspaceDistance (_game : Game) (_hyperspace : ℚ) :
    Except JsError ℚ :=
  Except.error (JsError.typeError
    "Cannot read properties of undefined (reading getHyperspaceDistance)")

/-- ai.js:177 refers to `player` inside the enemy-star `filter` callback,
but `_computeBorderStarQueue` has no `player` binding in scope (the
parameter of that name belongs to `_setupAi`); evaluating the name throws a
ReferenceError. -/
def playerVar : Except JsError Nat := Except.error (JsError.referenceError "player")

/-- ai.js:185 calls `minBy`, but ai.js:7 destructures only
`intersectionOfSets` and `maxBy` out of `../utils.js`, so `minBy` is an
unbound name; evaluating it throws a ReferenceError. -/
def minByVar : Except JsError ℚ := Except.error (JsError.referenceError "minBy")

/-- Embedding of `_computeBorderStarQueue` (ai.js:173-199).  Line 174
computes the highest hyperspace level; line 175 calls a method on the
undefined `this.distanceService` and therefore always throws.  The rest of
the source — filtering enemy stars (which dereferences the unbound
`player`), and the scoring loop (which dereferences the unbound `minBy`,
divides by the relative distance with no zero guard, and inserts entries
scoring below the 2.5 threshold) — is embedded faithfully after it, all of
it unreachable. -/
def computeBorderStarQueue (game : Game) (borderVertices : List Nat)
    (playerStars : List Star) : Except JsError (List QEntry) := do
  let highestHyperspaceLevel :=
    maxBy (fun p => p.research.hyperspace.level) game.galaxy.players
  let highestHyperspaceDistance ←
    thisDistanceServiceGetHyperspaceDistance game highestHyperspaceLevel
  let _enemyStars ← game.galaxy.stars.foldlM (fun acc star => do
    let keep ← (match star.ownedByPlayerId with
      | none => pure false
      | some pid => do
        let p ← playerVar
        pure (pid != p))
    pure (if keep then acc ++ [star] else acc)) ([] : List Star)
  borderVertices.foldlM (fun borderStarQueue borderVertex => do
    let _borderStar := playerStars[borderVertex]?
    let distanceToClosesEnemyStar ← minByVar
    let distanceRelative := distanceToClosesEnemyStar / highestHyperspaceDistance
    if distanceRelative < 5 / 2 then
      let score := 1 / distanceRelative
      pure (bsqInsert ⟨score, borderVertex⟩ borderStarQueue)
    else
      pure borderStarQueue) ([] : List QEntry)

/-- A game whose galaxy holds one player and four stars all owned by that
player: the hostile-star set is empty. -/
def gameNoHostiles : Game :=
  { galaxy :=
    { players := [{ defeated := true, ai := true, credits := 0, research := ⟨⟨1⟩⟩ }],
      stars :=
        [ { location := ⟨0, 0⟩, ownedByPlayerId := some 1 },
          { location := ⟨1, 0⟩, ownedByPlayerId := some 1 },
          { location := ⟨0, 1⟩, ownedByPlayerId := some 1 },
          { location := ⟨1, 1⟩, ownedByPlayerId := some 1 } ] } }

/-- C7: with an empty hostile set the threat scorer does not return an empty
queue (and no empty logistics graph ensues): it throws a TypeError before
examining a single star, because `this.distanceService` was never assigned.
Evaluation on a four-star galaxy with no hostile stars and border vertices
{0, 1}. -/
theorem computeBorderStarQueue_throws_with_no_hostiles :
    computeBorderStarQueue gameNoHostiles [0, 1] gameNoHostiles.galaxy.stars =
      Except.error (JsError.typeError
        "Cannot read properties of undefined (reading getHyperspaceDistance)") := rfl

/-- A game with one hostile star at the exact location of the player's
border star: the nearest-hostile distance of border vertex 0 is exactly 0. -/
def gameZeroDistance : Game :=
  { galaxy :=
    { players := [{ defeated := true, ai := true, credits := 0, research := ⟨⟨1⟩⟩ }],
      stars :=
        [ { location := ⟨0, 0⟩, ownedByPlayerId := some 1 },
          { location := ⟨0, 0⟩, ownedByPlayerId := some 2 } ] } }

/-- C2: there is no division guard for a zero-distance threat.  On a game
with a hostile star at the same location as the border star the scorer does
not insert anything — it throws a TypeError before scoring (undefined
`this.distanceService`; behind it, `player` and `minBy` are also unbound).
And the scoring expression itself, `1 / distanceRelative` (ai.js:190),
evaluated at `distanceRelative = 0`, performs the division and yields
Infinity, which is not the maximum representable value (Number.MAX_VALUE). -/
theorem computeBorderStarQueue_no_zero_distance_guard :
    computeBorderStarQueue gameZeroDistance [0]
        [{ location := ⟨0, 0⟩, ownedByPlayerId := some 1 }] =
      Except.error (JsError.typeError
        "Cannot read properties of undefined (reading getHyperspaceDistance)") ∧
    scoreOf 0 = JSNum.inf ∧ scoreOf 0 ≠ numberMaxValue := by
  refine ⟨rfl, rfl, ?_⟩
  simp [scoreOf, numberMaxValue]

/-- A carrier loop descriptor (`{from, to}`, ai.js:100-103): both endpoints
are looked up by index in `playerStars`; a JS out-of-range index yields
`undefined`, hence the `Option`. -/
structure CarrierLoop where
  loopFrom : Option Star
  loopTo : Option Star
deriving DecidableEq, Repr

/-- Embedding of `_computeCarrierLoopsFromGraph` (ai.js:95-108).
`new Array(logisticsGraph.size)` (line 96) creates an array of `size` empty
slots, where `size` is the number of keys of the `Map`, and the subsequent
`loops.push(...)` calls append after those slots: the returned array starts
with `size` holes (modelled as `none`) followed by one descriptor per edge
in iteration order. -/
def computeCarrierLoopsFromGraph (logisticsGraph : LogGraph) (playerStars : List Star) :
    List (Option CarrierLoop) :=
  logisticsGraph.foldl (fun loops entry =>
    entry.2.foldl (fun loops endV =>
      loops ++ [some { loopFrom := playerStars[entry.1]?, loopTo := playerStars[endV]? }])
      loops)
    (List.replicate logisticsGraph.length none)

/-- A concrete star for the C8 evaluation. -/
def star0 : Star := { location := ⟨0, 0⟩, ownedByPlayerId := some 1 }

/-- A second concrete star for the C8 evaluation. -/
def star1 : Star := { location := ⟨1, 0⟩, ownedByPlayerId := some 1 }

/-- C8: the returned collection is not exactly one descriptor per edge.  For
the one-edge graph {0 → {1}} over two stars, the result has length 2: a
leading empty slot left over from `new Array(size)`, then the single
descriptor pairing star 0 with star 1. -/
theorem computeCarrierLoops_leading_hole :
    computeCarrierLoopsFromGraph [(0, [1])] [star0, star1] =
      [none, some { loopFrom := some star0, loopTo := some star1 }] := rfl

end Solaris
